import Mathlib

/-
Verification of the output-parsing and polling logic of adguard-vpn-gui.py
(a PyQt5 wrapper around the AdGuard VPN CLI).

Strings are modelled as `List Char`.  Python's `str` methods used by the
program are embedded as explicit Lean functions:

  * `str.lower`            -> `lowerStr`   (per-character, ASCII range)
  * `needle in haystack`   -> `containsSub`
  * `s.split(sep, 1)`      -> `splitAtFirst`
  * `s.split(sep)[0]`      -> `firstPart`
  * `s.strip()`            -> `pyStrip`
  * `s.split()`            -> `pySplitWs`
  * `s.split('\n')`        -> `splitLines`
  * `s.isalpha()`          -> `strIsAlpha` (ASCII range)
  * `s.isdigit()`          -> `strIsDigit` (ASCII range)
  * `int(s)` (digits only) -> `pyInt`
  * `re.sub(ansi_re, '', s)` -> `clean_ansi`
-/

/-! ## Python string primitives -/

/-- Python whitespace characters (`str.split()` / `str.strip()` defaults,
ASCII part). -/
def pyIsSpace (c : Char) : Bool :=
  c = ' ' || c = '\t' || c = '\n' || c = '\r' || c = '\x0b' || c = '\x0c'

/-- `str.lower` on one character (ASCII range). -/
def pyLowerChar (c : Char) : Char :=
  if 'A' ≤ c && c ≤ 'Z' then Char.ofNat (c.toNat + 32) else c

/-- `str.lower` on a whole string. -/
def lowerStr (s : List Char) : List Char := s.map pyLowerChar

/-- Python's `needle in haystack` substring test. -/
def containsSub : List Char → List Char → Bool
  | n, [] => n.isEmpty
  | n, c :: t => n.isPrefixOf (c :: t) || containsSub n t

/-- Python's `s.split(sep, 1)`: `some (before, after)` at the first
occurrence of `sep`, `none` when `sep` does not occur (the Python call then
returns the one-element list `[s]`). -/
def splitAtFirst (sep : List Char) : List Char → Option (List Char × List Char)
  | [] => if sep.isPrefixOf ([] : List Char) then some ([], []) else none
  | c :: t =>
    if sep.isPrefixOf (c :: t) then some ([], (c :: t).drop sep.length)
    else
      match splitAtFirst sep t with
      | some (p, q) => some (c :: p, q)
      | none => none

/-- Python's `s.split(sep)[0]`: the text before the first occurrence of
`sep`, or all of `s` when `sep` does not occur. -/
def firstPart (sep s : List Char) : List Char :=
  match splitAtFirst sep s with
  | some (p, _) => p
  | none => s

/-- Python's `s.strip()`. -/
def pyStrip (s : List Char) : List Char :=
  ((s.dropWhile pyIsSpace).reverse.dropWhile pyIsSpace).reverse

/-- Helper for `pySplitWs`: accumulates the current (reversed) word. -/
def splitWsAux : List Char → List Char → List (List Char)
  | [], acc => if acc.isEmpty then [] else [acc.reverse]
  | c :: t, acc =>
    if pyIsSpace c then
      if acc.isEmpty then splitWsAux t [] else acc.reverse :: splitWsAux t []
    else splitWsAux t (c :: acc)

/-- Python's `s.split()` (no argument): split on whitespace runs, dropping
empty fields. -/
def pySplitWs (s : List Char) : List (List Char) := splitWsAux s []

/-- ASCII letter test (Python `str.isalpha`, ASCII range). -/
def pyIsAlphaChar (c : Char) : Bool :=
  ('A' ≤ c && c ≤ 'Z') || ('a' ≤ c && c ≤ 'z')

/-- Python `s.isalpha()`: nonempty and all-alphabetic. -/
def strIsAlpha (s : List Char) : Bool := !s.isEmpty && s.all pyIsAlphaChar

/-- ASCII digit test (Python `str.isdigit`, ASCII range). -/
def pyIsDigitChar (c : Char) : Bool := '0' ≤ c && c ≤ '9'

/-- Python `s.isdigit()`: nonempty and all-digits. -/
def strIsDigit (s : List Char) : Bool := !s.isEmpty && s.all pyIsDigitChar

/-- `int(s)` for an all-digit string. -/
def pyInt (s : List Char) : Nat := s.foldl (fun n c => 10 * n + (c.toNat - 48)) 0

/-- Helper for `splitLines`: accumulates the current (reversed) line. -/
def splitLinesAux : List Char → List Char → List (List Char)
  | [], acc => [acc.reverse]
  | c :: t, acc =>
    if c = '\n' then acc.reverse :: splitLinesAux t []
    else splitLinesAux t (c :: acc)

/-- Python's `s.split('\n')` (keeps empty lines). -/
def splitLines (s : List Char) : List (List Char) := splitLinesAux s []

/-! ## clean_ansi (source lines 43-46)

The regex is ESC followed by either one character in 0x40-0x5A or 0x5C-0x5F,
or by a bracket 0x5B, any parameter bytes 0x30-0x3F, any intermediate bytes
0x20-0x2F, and one final byte 0x40-0x7E; matches are substituted by the empty
string.  `re.sub` scans left to right and removes non-overlapping matches.
The three CSI character classes are pairwise disjoint, so the greedy,
backtracking-free reading below is exact. -/

/-- CSI parameter bytes 0x30-0x3F. -/
def csiParam (c : Char) : Bool := '0' ≤ c && c ≤ '?'

/-- CSI intermediate bytes 0x20-0x2F. -/
def csiInter (c : Char) : Bool := ' ' ≤ c && c ≤ '/'

/-- Character class `[@-~]` (CSI final bytes 0x40-0x7E). -/
def csiFinal (c : Char) : Bool := '@' ≤ c && c ≤ '~'

/-- Character class `[@-Z\\-_]` (two-character escapes 0x40-0x5A, 0x5C-0x5F). -/
def escSingle (c : Char) : Bool :=
  ('@' ≤ c && c ≤ 'Z') || ('\\' ≤ c && c ≤ '_')

/-- Given the text right after an ESC (0x1B), try to match the rest of the
regex; on success return the remaining suffix. -/
def escTail (t : List Char) : Option (List Char) :=
  match t with
  | [] => none
  | c :: t2 =>
    if escSingle c then some t2
    else if c = '[' then
      match (t2.dropWhile csiParam).dropWhile csiInter with
      | f :: r => if csiFinal f then some r else none
      | [] => none
    else none

/-- Fuel-indexed scanner implementing `re.sub(pattern, '', s)`.  Each match
consumes at least the ESC character, so fuel `s.length` suffices. -/
def cleanAux : Nat → List Char → List Char
  | 0, s => s
  | _ + 1, [] => []
  | fuel + 1, c :: t =>
    if c = '\x1B' then
      match escTail t with
      | some r => cleanAux fuel r
      | none => c :: cleanAux fuel t
    else c :: cleanAux fuel t

/-- `clean_ansi` (source lines 43-46): remove ANSI escape sequences. -/
def clean_ansi (s : List Char) : List Char := cleanAux s.length s

/-! ## GUI state and the status classifier (source lines 224-238, 329-361) -/

/-- The slice of `AdGuardVPNGUI` state touched by `set_buttons_logic` and
`parse_and_apply_status`: the two labels, `current_city`, and the
enabled-flags of the combo box and the two buttons. -/
structure GuiState where
  status_label : List Char
  info_label : List Char
  current_city : Option (List Char)
  combo_enabled : Bool
  btn_connect_enabled : Bool
  btn_disconnect_enabled : Bool
deriving DecidableEq, Repr

/-- `set_buttons_logic` (source lines 224-238). -/
def set_buttons_logic (st : GuiState) : GuiState :=
  if containsSub "CONNECTED".data st.status_label &&
      !(containsSub "DIS".data st.status_label) then
    { st with
      btn_connect_enabled := false
      btn_disconnect_enabled := true
      combo_enabled := false }
  else
    { st with
      btn_connect_enabled := true
      btn_disconnect_enabled := false
      combo_enabled := true }

/-- City extraction of the Connected branch (source lines 346-354).  Note
that the containment test runs on the lower-cased text but the slicing runs
on the original-case output. -/
def extractCity (out : List Char) : List Char :=
  if containsSub "connected to".data (lowerStr out) then
    match splitAtFirst "to ".data out with
    | some (_, rest) =>
      if containsSub " in ".data rest then pyStrip (firstPart " in ".data rest)
      else pyStrip (firstPart ['\n'] rest)
    | none => "Неизвестно".data
  else "Неизвестно".data

/-- The if/elif classifier of `parse_and_apply_status` (source lines
331-358). -/
def parse_status_core (out : List Char) (st : GuiState) : GuiState :=
  if containsSub "disconnected".data (lowerStr out) ||
      containsSub "vpn stopped".data (lowerStr out) then
    if !(containsSub "DISCONNECTED".data st.status_label) then
      set_buttons_logic
        { st with
          status_label := "DISCONNECTED".data
          info_label := "Нет подключения".data
          current_city := none }
    else st
  else if containsSub "connected".data (lowerStr out) &&
      (containsSub "successfully".data (lowerStr out) ||
        containsSub "to".data (lowerStr out)) then
    if !(containsSub "CONNECTED".data st.status_label) then
      set_buttons_logic
        { st with
          status_label := "CONNECTED".data
          info_label := "Локация: ".data ++ extractCity out
          current_city := some (extractCity out) }
    else st
  else st

/-- Trailing combo re-enable of `parse_and_apply_status` (source lines
360-361). -/
def applyComboFix (st : GuiState) : GuiState :=
  if !(containsSub "CONNECTED".data st.status_label) then
    { st with combo_enabled := true }
  else st

/-- `parse_and_apply_status` (source lines 329-361). -/
def parse_and_apply_status (out : List Char) (st : GuiState) : GuiState :=
  applyComboFix (parse_status_core out st)

/-! ## Worker.run result handling (source lines 82-92) -/

/-- `full_output` (source lines 82-84): ANSI-stripped, whitespace-stripped
stdout and stderr joined by a newline. -/
def fullOutput (stdout stderr : List Char) : List Char :=
  pyStrip (clean_ansi stdout) ++ '\n' :: pyStrip (clean_ansi stderr)

/-- The `finished` signal emitted by `Worker.run` for a completed process
(source lines 86-92): success flag and message. -/
def worker_run (returncode : Int) (stdout stderr : List Char) :
    Bool × List Char :=
  if returncode = 0 then (true, fullOutput stdout stderr)
  else if containsSub "pkexec".data (fullOutput stdout stderr) &&
      containsSub "dismissed".data (fullOutput stdout stderr) then
    (false, "Отмена".data)
  else (false, fullOutput stdout stderr)

/-! ## check_status_routine (source lines 309-320) -/

/-- The slice of application state read and written by
`check_status_routine`: the login flag, the status label, and the status
worker (`none` when no worker was ever created, `some running` for the flag
`isRunning()` of the last one). -/
structure AppPollState where
  is_logged_in : Bool
  status_label : List Char
  w_status : Option Bool
deriving DecidableEq, Repr

/-- `check_status_routine` (source lines 309-320).  Returns the new state
and whether a new status worker was started. -/
def check_status_routine (st : AppPollState) : AppPollState × Bool :=
  if !st.is_logged_in then (st, false)
  else if containsSub "Ввод пароля".data st.status_label then (st, false)
  else if (match st.w_status with
           | some running => running
           | none => false) then (st, false)
  else ({ st with w_status := some true }, true)

/-! ## parse_locations (source lines 363-393) -/

/-- A location row, stored by the source as the tuple
`(ping, display_text, country_code)` (source lines 377-382). -/
abbrev LocRow : Type := Nat × List Char × List Char

/-- Ordering used by `locations.sort(key=lambda x: x[0])`: ascending ping. -/
def pingLe (a b : LocRow) : Prop := a.1 ≤ b.1

instance : DecidableRel pingLe :=
  fun a b => inferInstanceAs (Decidable (a.1 ≤ b.1))

instance : IsTotal LocRow pingLe := ⟨fun a b => Nat.le_total a.1 b.1⟩

instance : IsTrans LocRow pingLe := ⟨fun _ _ _ h1 h2 => Nat.le_trans h1 h2⟩

/-- The f-string `"[{ping_str} ms]  {' '.join(parts[1:-1])} ({id_code})"`
(source line 380). -/
def displayText (ping_str : List Char) (mid : List (List Char))
    (id_code : List Char) : List Char :=
  '[' :: (ping_str ++ " ms]  ".data ++ List.intercalate [' '] mid ++
    " (".data ++ id_code ++ [')'])

/-- One iteration of the parsing loop of `parse_locations` (source lines
367-382): `none` when the line is skipped by one of the three `continue`s. -/
def parseLine (line : List Char) : Option LocRow :=
  if (pySplitWs line).length < 3 then none
  else if !(((pySplitWs line).headD []).length == 2 &&
      strIsAlpha ((pySplitWs line).headD [])) then none
  else if !(strIsDigit ((pySplitWs line).getLastD [])) then none
  else some (pyInt ((pySplitWs line).getLastD []),
    displayText ((pySplitWs line).getLastD [])
      (((pySplitWs line).drop 1).dropLast) ((pySplitWs line).headD []),
    (pySplitWs line).headD [])

/-- The rows built from a list of lines, sorted ascending by ping.  Python's
`list.sort` is a stable ascending sort, as is `List.insertionSort` with this
reflexive total order, so the two agree on every input. -/
def locationsFromLines (ls : List (List Char)) : List LocRow :=
  List.insertionSort pingLe (ls.filterMap parseLine)

/-- `parse_locations` (source lines 363-393): the rows inserted, in order,
into the combo box. -/
def parse_locations (out : List Char) : List LocRow :=
  locationsFromLines (splitLines out)

/-! ## Basic lemmas about the string primitives -/

theorem isPrefixOf_eq_true_iff :
    ∀ (a b : List Char), a.isPrefixOf b = true ↔ ∃ r, a ++ r = b
  | [], b => by simp [List.isPrefixOf]
  | _ :: _, [] => by simp [List.isPrefixOf]
  | x :: xs, y :: ys => by
    simp only [List.isPrefixOf, Bool.and_eq_true, beq_iff_eq,
      isPrefixOf_eq_true_iff xs ys]
    constructor
    · rintro ⟨hxy, r, hr⟩
      exact ⟨r, by simp [hxy, hr]⟩
    · rintro ⟨r, hr⟩
      rw [List.cons_append, List.cons.injEq] at hr
      exact ⟨hr.1, r, hr.2⟩

theorem containsSub_eq_true_iff :
    ∀ (n h : List Char), containsSub n h = true ↔ ∃ u v, u ++ (n ++ v) = h
  | n, [] => by
    simp [containsSub, List.isEmpty_iff, List.append_eq_nil]
  | n, c :: t => by
    simp only [containsSub, Bool.or_eq_true, isPrefixOf_eq_true_iff,
      containsSub_eq_true_iff n t]
    constructor
    · rintro (⟨r, hr⟩ | ⟨u, v, huv⟩)
      · exact ⟨[], r, by simpa using hr⟩
      · exact ⟨c :: u, v, by simp [huv]⟩
    · rintro ⟨u, v, huv⟩
      cases u with
      | nil => exact Or.inl ⟨v, by simpa using huv⟩
      | cons a u2 =>
        rw [List.cons_append, List.cons.injEq] at huv
        exact Or.inr ⟨u2, v, huv.2⟩

/-- A substring of a substring is a substring: if `x ++ n ++ y = m` then
any text containing `m` contains `n`. -/
theorem containsSub_of_middle (x y n m h : List Char)
    (hm : x ++ (n ++ y) = m) (hc : containsSub m h = true) :
    containsSub n h = true := by
  rcases (containsSub_eq_true_iff m h).1 hc with ⟨u, v, huv⟩
  refine (containsSub_eq_true_iff n h).2 ⟨u ++ x, y ++ v, ?_⟩
  rw [← huv, ← hm]
  simp [List.append_assoc]

theorem containsSub_length_le (n h : List Char)
    (hc : containsSub n h = true) : n.length ≤ h.length := by
  rcases (containsSub_eq_true_iff n h).1 hc with ⟨u, v, huv⟩
  have := congrArg List.length huv
  simp [List.length_append] at this
  omega

theorem splitAtFirst_eq_some :
    ∀ (sep s p q : List Char), splitAtFirst sep s = some (p, q) →
      s = p ++ (sep ++ q)
  | sep, [], p, q => by
    intro h
    simp only [splitAtFirst] at h
    split at h
    · rename_i hpre
      rcases (isPrefixOf_eq_true_iff sep []).1 hpre with ⟨r, hr⟩
      rcases List.append_eq_nil.1 hr with ⟨h1, h2⟩
      simp only [Option.some.injEq, Prod.mk.injEq] at h
      simp [← h.1, ← h.2, h1]
    · exact absurd h (by simp)
  | sep, c :: t, p, q => by
    intro h
    simp only [splitAtFirst] at h
    split at h
    · rename_i hpre
      rcases (isPrefixOf_eq_true_iff sep (c :: t)).1 hpre with ⟨r, hr⟩
      simp only [Option.some.injEq, Prod.mk.injEq] at h
      have hdrop : (c :: t).drop sep.length = r := by
        rw [← hr, List.drop_left]
      rw [← h.1, ← h.2, hdrop, List.nil_append, hr]
    · revert h
      cases hrec : splitAtFirst sep t with
      | none => intro h; exact absurd h (by simp)
      | some pq =>
        intro h
        simp only [Option.some.injEq, Prod.mk.injEq] at h
        have := splitAtFirst_eq_some sep t pq.1 pq.2 (by rw [hrec])
        rw [← h.1, ← h.2, List.cons_append, ← this]

theorem splitAtFirst_contains (sep s p q : List Char)
    (h : splitAtFirst sep s = some (p, q)) : containsSub sep s = true :=
  (containsSub_eq_true_iff sep s).2 ⟨p, q, (splitAtFirst_eq_some sep s p q h).symm⟩

/-- `cleanAux` is the identity on ESC-free text, for every fuel value. -/
theorem cleanAux_of_no_esc :
    ∀ (fuel : Nat) (s : List Char), '\x1B' ∉ s → cleanAux fuel s = s
  | 0, _, _ => rfl
  | _ + 1, [], _ => rfl
  | fuel + 1, c :: t, h => by
    have hc : ¬ c = '\x1B' := fun hc => h (hc ▸ List.mem_cons_self c t)
    have ht : '\x1B' ∉ t := fun ht => h (List.mem_cons_of_mem c ht)
    simp [cleanAux, hc, cleanAux_of_no_esc fuel t ht]

/-! ## Field-preservation lemmas for the GUI state helpers -/

theorem sbl_status_label (st : GuiState) :
    (set_buttons_logic st).status_label = st.status_label := by
  unfold set_buttons_logic; split <;> rfl

theorem sbl_info_label (st : GuiState) :
    (set_buttons_logic st).info_label = st.info_label := by
  unfold set_buttons_logic; split <;> rfl

theorem sbl_current_city (st : GuiState) :
    (set_buttons_logic st).current_city = st.current_city := by
  unfold set_buttons_logic; split <;> rfl

theorem acf_status_label (st : GuiState) :
    (applyComboFix st).status_label = st.status_label := by
  unfold applyComboFix; split <;> rfl

theorem acf_info_label (st : GuiState) :
    (applyComboFix st).info_label = st.info_label := by
  unfold applyComboFix; split <;> rfl

theorem acf_current_city (st : GuiState) :
    (applyComboFix st).current_city = st.current_city := by
  unfold applyComboFix; split <;> rfl

/-! ## Claim theorems -/

/-- C3: for every list-locations output, the rows produced by
`parse_locations` (and inserted into the dropdown in that order) are sorted
ascending by the trailing numeric ping value of each kept line. -/
theorem parse_locations_sorted_by_ping (out : List Char) :
    List.Sorted pingLe (parse_locations out) :=
  List.sorted_insertionSort pingLe _

/-- C10 counterexample: `clean_ansi` output can still contain a match of the
ANSI pattern, and applying `clean_ansi` twice can differ from applying it
once.  On ESC ESC `[31m` A, the first pass removes the CSI sequence and glues
the leading ESC to the final A, forming a new two-character escape that a
second pass removes. -/
theorem clean_ansi_not_idempotent_cex :
    clean_ansi ("\x1B\x1B[31mA".data) = '\x1B' :: ['A'] ∧
    clean_ansi (clean_ansi ("\x1B\x1B[31mA".data)) = [] ∧
    clean_ansi (clean_ansi ("\x1B\x1B[31mA".data)) ≠
      clean_ansi ("\x1B\x1B[31mA".data) := by decide

/-- C10 (amended): `clean_ansi` is the identity on every input that contains
no ESC character.  (The second half of the original claim - that the output
never contains a pattern match, hence idempotence - is refuted by
`clean_ansi_not_idempotent_cex`.) -/
theorem clean_ansi_id_on_escape_free (s : List Char) (h : '\x1B' ∉ s) :
    clean_ansi s = s :=
  cleanAux_of_no_esc s.length s h

/-- Witness for `clean_ansi_id_on_escape_free` at a concrete escape-free
input. -/
theorem clean_ansi_id_on_escape_free_wit :
    clean_ansi "VPN is disconnected".data = "VPN is disconnected".data :=
  clean_ansi_id_on_escape_free "VPN is disconnected".data (by decide)

/-- C6: for every completed command, `Worker.run` reports failure iff the
exit code is non-zero, and on failure surfaces the combined (ANSI-stripped,
whitespace-stripped, newline-joined) stdout+stderr text, except that when
that text contains both "pkexec" and "dismissed" the localized cancelled
message is surfaced instead. -/
theorem worker_run_failure_spec (rc : Int) (stdout stderr : List Char) :
    ((worker_run rc stdout stderr).1 = false ↔ rc ≠ 0) ∧
    (rc ≠ 0 →
      (worker_run rc stdout stderr).2 =
        if containsSub "pkexec".data (fullOutput stdout stderr) &&
            containsSub "dismissed".data (fullOutput stdout stderr) then
          "Отмена".data
        else fullOutput stdout stderr) := by
  by_cases h : rc = 0
  · subst h; simp [worker_run]
  · simp only [worker_run, if_neg h]
    refine ⟨⟨fun _ => h, fun _ => ?_⟩, fun _ => ?_⟩
    · split <;> rfl
    · split <;> rfl

/-- Witness for `worker_run_failure_spec`: a non-zero exit whose combined
output contains "pkexec" and "dismissed" is reported as a failure with the
localized cancelled message. -/
theorem worker_run_failure_spec_wit :
    (worker_run 1 "Error: pkexec request dismissed".data []).1 = false ∧
    (worker_run 1 "Error: pkexec request dismissed".data []).2 =
      "Отмена".data := by
  have h := worker_run_failure_spec 1 "Error: pkexec request dismissed".data []
  refine ⟨h.1.mpr (by decide), ?_⟩
  rw [h.2 (by decide)]
  decide

/-- C8: `check_status_routine` starts no new status worker while the user is
not logged in, while the status label shows the password-entry text, or
while the previously started status worker is still running; and it starts
one only when no status poll is running. -/
theorem check_status_single_poll (st : AppPollState) :
    ((st.is_logged_in = false ∨
        containsSub "Ввод пароля".data st.status_label = true ∨
        st.w_status = some true) →
      check_status_routine st = (st, false)) ∧
    ((check_status_routine st).2 = true → st.w_status ≠ some true) := by
  constructor
  · intro h
    unfold check_status_routine
    rcases h with h | h | h
    · simp [h]
    · cases hb : st.is_logged_in <;> simp [h, hb]
    · cases hb : st.is_logged_in <;>
        cases hc : containsSub "Ввод пароля".data st.status_label <;>
        simp [h, hb, hc]
  · intro h2 hw
    unfold check_status_routine at h2
    rw [hw] at h2
    cases hb : st.is_logged_in <;> rw [hb] at h2 <;> simp at h2

/-- Witness for `check_status_single_poll`: with a running status worker,
no new worker is started and the state is unchanged. -/
theorem check_status_single_poll_wit :
    check_status_routine ⟨true, "CONNECTED".data, some true⟩ =
      (⟨true, "CONNECTED".data, some true⟩, false) :=
  (check_status_single_poll ⟨true, "CONNECTED".data, some true⟩).1
    (Or.inr (Or.inr rfl))

/-- C4 counterexample: the line "de 23" has a 2-letter alphabetic first
token and a numeric last token, yet `parse_locations` drops it, because the
source also requires at least 3 whitespace-separated tokens (source line
369: `if len(parts) < 3: continue`). -/
theorem parse_locations_two_token_cex :
    ((pySplitWs "de 23".data).headD [] = "de".data ∧
      ("de".data).length = 2 ∧ strIsAlpha "de".data = true ∧
      (pySplitWs "de 23".data).getLastD [] = "23".data ∧
      strIsDigit "23".data = true) ∧
    parseLine "de 23".data = none ∧
    parse_locations "de 23".data = [] := by decide

/-- C4 (amended): every line of the output with at least 3 whitespace
tokens whose first token is a 2-letter alphabetic code and whose last token
is numeric contributes exactly one row - with that code and that ping - to
the location list. -/
theorem parseLine_keeps_wellformed (out line : List Char)
    (hmem : line ∈ splitLines out)
    (hlen : 3 ≤ (pySplitWs line).length)
    (hcode2 : ((pySplitWs line).headD []).length = 2)
    (hcodeA : strIsAlpha ((pySplitWs line).headD []) = true)
    (hping : strIsDigit ((pySplitWs line).getLastD []) = true) :
    parseLine line = some (pyInt ((pySplitWs line).getLastD []),
      displayText ((pySplitWs line).getLastD [])
        (((pySplitWs line).drop 1).dropLast) ((pySplitWs line).headD []),
      (pySplitWs line).headD []) ∧
    (pyInt ((pySplitWs line).getLastD []),
      displayText ((pySplitWs line).getLastD [])
        (((pySplitWs line).drop 1).dropLast) ((pySplitWs line).headD []),
      (pySplitWs line).headD []) ∈ parse_locations out := by
  have h1 : ¬ ((pySplitWs line).length < 3) := by omega
  have hsome : parseLine line = some (pyInt ((pySplitWs line).getLastD []),
      displayText ((pySplitWs line).getLastD [])
        (((pySplitWs line).drop 1).dropLast) ((pySplitWs line).headD []),
      (pySplitWs line).headD []) := by
    have hcode2' : ((pySplitWs line).head?.getD []).length = 2 := by
      simpa using hcode2
    have hcodeA' : strIsAlpha ((pySplitWs line).head?.getD []) = true := by
      simpa using hcodeA
    have hping' : strIsDigit ((pySplitWs line).getLast?.getD []) = true := by
      simpa using hping
    unfold parseLine
    rw [if_neg h1, if_neg (by simp [hcode2', hcodeA']),
      if_neg (by simp [hping'])]
  refine ⟨hsome, ?_⟩
  have hmemF : (pyInt ((pySplitWs line).getLastD []),
      displayText ((pySplitWs line).getLastD [])
        (((pySplitWs line).drop 1).dropLast) ((pySplitWs line).headD []),
      (pySplitWs line).headD []) ∈ (splitLines out).filterMap parseLine :=
    List.mem_filterMap.2 ⟨line, hmem, hsome⟩
  unfold parse_locations locationsFromLines
  exact ((List.perm_insertionSort pingLe _).mem_iff).2 hmemF

/-- Witness for `parseLine_keeps_wellformed` on the one-line output
"de Berlin 23". -/
theorem parseLine_keeps_wellformed_wit :
    (pyInt ((pySplitWs "de Berlin 23".data).getLastD []),
      displayText ((pySplitWs "de Berlin 23".data).getLastD [])
        (((pySplitWs "de Berlin 23".data).drop 1).dropLast)
        ((pySplitWs "de Berlin 23".data).headD []),
      (pySplitWs "de Berlin 23".data).headD []) ∈
      parse_locations "de Berlin 23".data :=
  (parseLine_keeps_wellformed "de Berlin 23".data "de Berlin 23".data
    (by decide) (by decide) (by decide) (by decide) (by decide)).2

/-- C5: a malformed line - fewer than 3 whitespace tokens, or a first token
that is not a 2-letter alphabetic code, or a non-numeric last token - is
dropped by `parse_locations`: it yields no row and hence no dropdown
entry, wherever it occurs among the output lines. -/
theorem parseLine_drops_malformed (line : List Char)
    (hbad : (pySplitWs line).length < 3 ∨
      ((pySplitWs line).headD []).length ≠ 2 ∨
      strIsAlpha ((pySplitWs line).headD []) = false ∨
      strIsDigit ((pySplitWs line).getLastD []) = false) :
    parseLine line = none ∧
    ∀ pre post : List (List Char),
      locationsFromLines (pre ++ line :: post) =
        locationsFromLines (pre ++ post) := by
  have hnone : parseLine line = none := by
    unfold parseLine
    split_ifs with g1 g2 g3
    · rfl
    · rfl
    · rfl
    · exfalso
      have g2' : (((pySplitWs line).headD []).length == 2 &&
          strIsAlpha ((pySplitWs line).headD [])) = true := by
        cases hx : (((pySplitWs line).headD []).length == 2 &&
            strIsAlpha ((pySplitWs line).headD [])) with
        | true => rfl
        | false =>
          exact absurd (by rw [hx]; rfl : (!(((pySplitWs line).headD []).length == 2 &&
            strIsAlpha ((pySplitWs line).headD []))) = true) g2
      have g3' : strIsDigit ((pySplitWs line).getLastD []) = true := by
        cases hx : strIsDigit ((pySplitWs line).getLastD []) with
        | true => rfl
        | false =>
          exact absurd (by rw [hx]; rfl :
            (!strIsDigit ((pySplitWs line).getLastD [])) = true) g3
      rw [Bool.and_eq_true, beq_iff_eq] at g2'
      rcases hbad with h | h | h | h
      · exact g1 h
      · exact h g2'.1
      · rw [g2'.2] at h; simp at h
      · rw [g3'] at h; simp at h
  refine ⟨hnone, fun pre post => ?_⟩
  unfold locationsFromLines
  rw [List.filterMap_append, List.filterMap_append,
    List.filterMap_cons_none hnone]

/-- Witness for `parseLine_drops_malformed`: the line "d3 Berlin 10" (code
not alphabetic) yields no row, wherever it is inserted. -/
theorem parseLine_drops_malformed_wit :
    parseLine "d3 Berlin 10".data = none ∧
    locationsFromLines (["de Paris 5".data] ++ "d3 Berlin 10".data :: []) =
      locationsFromLines (["de Paris 5".data] ++ []) := by
  have h := parseLine_drops_malformed "d3 Berlin 10".data
    (Or.inr (Or.inr (Or.inl (by decide))))
  exact ⟨h.1, h.2 ["de Paris 5".data] []⟩

/-- C2: for every output whose ANSI-stripped, lower-cased text contains
"disconnected" or "vpn stopped", `parse_and_apply_status` leaves the state
Disconnected: the status label is "DISCONNECTED" and `current_city` is
`none`.  The hypothesis `hinv` is the program-reachability invariant: the
status label contains "DISCONNECTED" only when it is exactly that string and
the city was already cleared (every assignment of the label in the source
writes one of a fixed set of strings, and "DISCONNECTED" is written only
together with `current_city = None`). -/
theorem parse_disconnected_sets_state (st : GuiState) (out : List Char)
    (hinv : containsSub "DISCONNECTED".data st.status_label = true →
      st.status_label = "DISCONNECTED".data ∧ st.current_city = none)
    (hd : containsSub "disconnected".data (lowerStr out) = true ∨
      containsSub "vpn stopped".data (lowerStr out) = true) :
    (parse_and_apply_status out st).status_label = "DISCONNECTED".data ∧
    (parse_and_apply_status out st).current_city = none := by
  have hcond : (containsSub "disconnected".data (lowerStr out) ||
      containsSub "vpn stopped".data (lowerStr out)) = true := by
    rcases hd with h | h <;> simp [h]
  have hdd : containsSub "CONNECTED".data "DISCONNECTED".data = true := by
    decide
  by_cases hg : containsSub "DISCONNECTED".data st.status_label = true
  · obtain ⟨hl, hc⟩ := hinv hg
    have hres : parse_and_apply_status out st = st := by
      unfold parse_and_apply_status parse_status_core applyComboFix
      rw [hcond, hg]
      simp [hl, hdd]
    rw [hres]
    exact ⟨hl, hc⟩
  · have hg' : containsSub "DISCONNECTED".data st.status_label = false := by
      cases hx : containsSub "DISCONNECTED".data st.status_label with
      | true => exact absurd hx hg
      | false => rfl
    unfold parse_and_apply_status parse_status_core
    rw [hcond, hg']
    simp only [Bool.not_false, if_pos rfl, acf_status_label, acf_current_city,
      sbl_status_label, sbl_current_city]
    exact ⟨rfl, rfl⟩

/-- Witness for `parse_disconnected_sets_state` on the output "VPN Stopped"
from the initial state. -/
theorem parse_disconnected_sets_state_wit :
    (parse_and_apply_status "VPN Stopped".data
        ⟨"Загрузка...".data, [], none, true, true, false⟩).status_label =
      "DISCONNECTED".data ∧
    (parse_and_apply_status "VPN Stopped".data
        ⟨"Загрузка...".data, [], none, true, true, false⟩).current_city =
      none :=
  parse_disconnected_sets_state ⟨"Загрузка...".data, [], none, true, true, false⟩
    "VPN Stopped".data (by decide) (Or.inr (by decide))

/-- C7: for every output whose ANSI-stripped, lower-cased text contains
neither "disconnected" nor "vpn stopped" nor the Connected pattern
("connected" together with "successfully" or "to"), `parse_and_apply_status`
leaves the status label, the info label, and `current_city` unchanged. -/
theorem parse_indeterminate_frame (st : GuiState) (out : List Char)
    (h1 : containsSub "disconnected".data (lowerStr out) = false)
    (h2 : containsSub "vpn stopped".data (lowerStr out) = false)
    (h3 : ¬(containsSub "connected".data (lowerStr out) = true ∧
      (containsSub "successfully".data (lowerStr out) = true ∨
        containsSub "to".data (lowerStr out) = true))) :
    (parse_and_apply_status out st).status_label = st.status_label ∧
    (parse_and_apply_status out st).info_label = st.info_label ∧
    (parse_and_apply_status out st).current_city = st.current_city := by
  have hcond1 : (containsSub "disconnected".data (lowerStr out) ||
      containsSub "vpn stopped".data (lowerStr out)) = false := by
    simp [h1, h2]
  have hcond2 : (containsSub "connected".data (lowerStr out) &&
      (containsSub "successfully".data (lowerStr out) ||
        containsSub "to".data (lowerStr out))) = false := by
    cases hA : containsSub "connected".data (lowerStr out) with
    | false => rfl
    | true =>
      cases hB : containsSub "successfully".data (lowerStr out) with
      | true => exact absurd ⟨hA, Or.inl hB⟩ h3
      | false =>
        cases hC : containsSub "to".data (lowerStr out) with
        | true => exact absurd ⟨hA, Or.inr hC⟩ h3
        | false => rfl
  have hres : parse_and_apply_status out st = applyComboFix st := by
    unfold parse_and_apply_status parse_status_core
    rw [hcond1, hcond2]
    simp
  rw [hres, acf_status_label, acf_info_label, acf_current_city]
  exact ⟨rfl, rfl, rfl⟩

/-- Witness for `parse_indeterminate_frame`: an unrecognized output leaves
a connected state's labels and city untouched. -/
theorem parse_indeterminate_frame_wit :
    (parse_and_apply_status "please wait".data
        ⟨"CONNECTED".data, "Локация: Berlin".data, some ("Berlin".data),
          false, false, true⟩).status_label = "CONNECTED".data ∧
    (parse_and_apply_status "please wait".data
        ⟨"CONNECTED".data, "Локация: Berlin".data, some ("Berlin".data),
          false, false, true⟩).info_label = "Локация: Berlin".data ∧
    (parse_and_apply_status "please wait".data
        ⟨"CONNECTED".data, "Локация: Berlin".data, some ("Berlin".data),
          false, false, true⟩).current_city = some ("Berlin".data) :=
  parse_indeterminate_frame
    ⟨"CONNECTED".data, "Локация: Berlin".data, some ("Berlin".data),
      false, false, true⟩
    "please wait".data (by decide) (by decide) (by decide)

/-- C9: precedence of Disconnected over Connected.  Because "connected" is a
substring of "disconnected" and the classifier tests the Disconnected
pattern first, every output whose lower-cased text contains "disconnected"
(or "vpn stopped") - even one that also contains "connected to" - results in
a Disconnected display: the label contains "DISCONNECTED", it is never
"CONNECTED", and no city is stored by this call. -/
theorem disconnected_precedence (st : GuiState) (out : List Char)
    (hd : containsSub "disconnected".data (lowerStr out) = true ∨
      containsSub "vpn stopped".data (lowerStr out) = true)
    (_hconn : containsSub "connected to".data (lowerStr out) = true) :
    containsSub "DISCONNECTED".data
      (parse_and_apply_status out st).status_label = true ∧
    (parse_and_apply_status out st).status_label ≠ "CONNECTED".data ∧
    (parse_and_apply_status out st).current_city =
      (if containsSub "DISCONNECTED".data st.status_label then st.current_city
       else none) := by
  have hcond : (containsSub "disconnected".data (lowerStr out) ||
      containsSub "vpn stopped".data (lowerStr out)) = true := by
    rcases hd with h | h <;> simp [h]
  by_cases hg : containsSub "DISCONNECTED".data st.status_label = true
  · have hres : parse_and_apply_status out st = applyComboFix st := by
      unfold parse_and_apply_status parse_status_core
      rw [hcond, hg]
      simp
    rw [hres, acf_status_label, acf_current_city, hg, if_pos rfl]
    refine ⟨rfl, ?_, rfl⟩
    intro heq
    rw [heq] at hg
    exact absurd hg (by decide)
  · have hg' : containsSub "DISCONNECTED".data st.status_label = false := by
      cases hx : containsSub "DISCONNECTED".data st.status_label with
      | true => exact absurd hx hg
      | false => rfl
    have hres : parse_and_apply_status out st =
        applyComboFix (set_buttons_logic
          { st with
            status_label := "DISCONNECTED".data
            info_label := "Нет подключения".data
            current_city := none }) := by
      unfold parse_and_apply_status parse_status_core
      rw [hcond, hg']
      simp
    rw [hres, acf_status_label, acf_current_city, sbl_status_label,
      sbl_current_city, hg']
    refine ⟨?_, ?_, ?_⟩
    · show containsSub "DISCONNECTED".data "DISCONNECTED".data = true
      decide
    · show "DISCONNECTED".data ≠ "CONNECTED".data
      decide
    · show (none : Option (List Char)) =
        if false = true then st.current_city else none
      rw [if_neg (by simp)]

/-- Witness for `disconnected_precedence`: an output containing both
patterns, applied to a connected state, yields DISCONNECTED and clears the
city. -/
theorem disconnected_precedence_wit :
    containsSub "DISCONNECTED".data
      (parse_and_apply_status
        "disconnected, then connected to berlin in germany".data
        ⟨"CONNECTED".data, "Локация: paris".data, some ("paris".data),
          false, false, true⟩).status_label = true ∧
    (parse_and_apply_status
        "disconnected, then connected to berlin in germany".data
        ⟨"CONNECTED".data, "Локация: paris".data, some ("paris".data),
          false, false, true⟩).current_city = none := by
  have h := disconnected_precedence
    ⟨"CONNECTED".data, "Локация: paris".data, some ("paris".data),
      false, false, true⟩
    "disconnected, then connected to berlin in germany".data
    (Or.inl (by decide)) (by decide)
  refine ⟨h.1, ?_⟩
  rw [h.2.2]
  decide

/-- C1 counterexample: from the reachable state whose status label is
"DISCONNECTED" (and city cleared), the output "connected to berlin in
germany" - whose lower-cased text literally contains
"connected to berlin in germany" - does NOT set the state to Connected and
does NOT store the city "berlin": the Connected branch is guarded by
`"CONNECTED" not in self.status_label.text()` (source line 342), and
"CONNECTED" is a substring of "DISCONNECTED". -/
theorem parse_connected_claim_cex :
    containsSub "connected to berlin in germany".data
      (lowerStr "connected to berlin in germany".data) = true ∧
    (parse_and_apply_status "connected to berlin in germany".data
        ⟨"DISCONNECTED".data, "Нет подключения".data, none, true, true,
          false⟩).status_label ≠ "CONNECTED".data ∧
    (parse_and_apply_status "connected to berlin in germany".data
        ⟨"DISCONNECTED".data, "Нет подключения".data, none, true, true,
          false⟩).current_city ≠ some ("berlin".data) := by decide

/-- C1 (amended): for every output whose ANSI-stripped lower-cased text
contains "connected to" and contains neither "disconnected" nor
"vpn stopped", if the current status label does not contain "CONNECTED"
then `parse_and_apply_status` sets the state to Connected, and the stored
city is the whitespace-stripped slice of the ORIGINAL-case output between
its first literal "to " and the next literal " in " (here: the slice `b`
fixed by the two split hypotheses). -/
theorem parse_connected_sets_city (st : GuiState)
    (out a rest b c : List Char)
    (h1 : containsSub "connected to".data (lowerStr out) = true)
    (h2 : containsSub "disconnected".data (lowerStr out) = false)
    (h3 : containsSub "vpn stopped".data (lowerStr out) = false)
    (h4 : containsSub "CONNECTED".data st.status_label = false)
    (h5 : splitAtFirst "to ".data out = some (a, rest))
    (h6 : splitAtFirst " in ".data rest = some (b, c)) :
    (parse_and_apply_status out st).status_label = "CONNECTED".data ∧
    (parse_and_apply_status out st).current_city = some (pyStrip b) := by
  have hcA : containsSub "connected".data (lowerStr out) = true :=
    containsSub_of_middle [] " to".data "connected".data "connected to".data
      (lowerStr out) (by decide) h1
  have hcB : containsSub "to".data (lowerStr out) = true :=
    containsSub_of_middle "connected ".data [] "to".data "connected to".data
      (lowerStr out) (by decide) h1
  have hin : containsSub " in ".data rest = true :=
    splitAtFirst_contains " in ".data rest b c h6
  have hb : firstPart " in ".data rest = b := by
    unfold firstPart; rw [h6]
  have hcity : extractCity out = pyStrip b := by
    unfold extractCity
    rw [h1, if_pos rfl, h5]
    show (if containsSub " in ".data rest = true then
        pyStrip (firstPart " in ".data rest)
      else pyStrip (firstPart ['\n'] rest)) = pyStrip b
    rw [hin, if_pos rfl, hb]
  have hcond1 : (containsSub "disconnected".data (lowerStr out) ||
      containsSub "vpn stopped".data (lowerStr out)) = false := by
    simp [h2, h3]
  have hcond2 : (containsSub "connected".data (lowerStr out) &&
      (containsSub "successfully".data (lowerStr out) ||
        containsSub "to".data (lowerStr out))) = true := by
    simp [hcA, hcB]
  have hres : parse_and_apply_status out st =
      applyComboFix (set_buttons_logic
        { st with
          status_label := "CONNECTED".data
          info_label := "Локация: ".data ++ extractCity out
          current_city := some (extractCity out) }) := by
    unfold parse_and_apply_status parse_status_core
    rw [hcond1, hcond2, h4]
    simp
  rw [hres, acf_status_label, acf_current_city, sbl_status_label,
    sbl_current_city]
  exact ⟨rfl, by rw [show ({ st with
    status_label := "CONNECTED".data
    info_label := "Локация: ".data ++ extractCity out
    current_city := some (extractCity out) } : GuiState).current_city =
      some (extractCity out) from rfl, hcity]⟩

/-- Witness for `parse_connected_sets_city` on the output
"Connected to Berlin in Germany" from the initial state. -/
theorem parse_connected_sets_city_wit :
    (parse_and_apply_status "Connected to Berlin in Germany".data
        ⟨"Загрузка...".data, [], none, true, true, false⟩).status_label =
      "CONNECTED".data ∧
    (parse_and_apply_status "Connected to Berlin in Germany".data
        ⟨"Загрузка...".data, [], none, true, true, false⟩).current_city =
      some ("Berlin".data) := by
  have h := parse_connected_sets_city
    ⟨"Загрузка...".data, [], none, true, true, false⟩
    "Connected to Berlin in Germany".data
    "Connected ".data "Berlin in Germany".data "Berlin".data "Germany".data
    (by decide) (by decide) (by decide) (by decide) (by decide) (by decide)
  refine ⟨h.1, ?_⟩
  rw [h.2]
  decide
